import Mathlib

/-!
Verification development for the Clanker voice-interaction loop.

The definitions below are a shallow embedding of the Python sources:
`src/modules/stt.py` (silence-detecting recorder, manual recording session,
WAV packaging), `src/server/state_broadcaster.py` (status notifier) and
`src/modules/llm.py` (response generator).  Machine integers are modelled
as `Int`/`Nat`; 16-bit sample arithmetic (numpy `int16`) is made explicit
where it matters; fallible calls are modelled with `Except`/`Option`, and
external I/O outcomes (HTTP results, device data) are passed in as
explicit oracle arguments.
-/

/-- An audio frame: the signed 16-bit samples of one captured chunk
(`np.frombuffer(data, dtype=np.int16)`). -/
abbrev Frame := List Int

/-- Recorder configuration, from the `WhisperSTT.__init__` fields in
`src/modules/stt.py`. -/
structure Config where
  sample_rate : Nat
  channels : Nat
  chunk_size : Nat
  silence_threshold : Int
  silence_duration : Rat

/-- Absolute value as numpy computes it on an `int16` array: `np.abs`
keeps the dtype, so `|-32768|` overflows back to `-32768`; every other
in-range value gets its true absolute value. -/
def wrappedAbs (s : Int) : Int :=
  if s = -32768 then -32768 else |s|

/-- The volume the code computes for a frame:
`np.abs(audio_data).mean()` with `audio_data` of dtype `int16`
(`src/modules/stt.py` line 87).  The mean over an empty list is taken to
be 0 (the code never reads empty chunks; numpy would give NaN, which
also compares as not-greater-than the threshold). -/
def volume (f : Frame) : Rat :=
  (((f.map wrappedAbs).sum : Int) : Rat) / (f.length : Rat)

/-- The volume the spec describes: the mean of the true absolute sample
values ("Compute volume = mean(|sample| for sample in frame)").
Agrees with `volume` on every frame containing no `-32768` sample. -/
def specVolume (f : Frame) : Rat :=
  (((f.map (fun s => |s|)).sum : Int) : Rat) / (f.length : Rat)

/-- Detector state threaded through the recording loop of
`record_audio`: `started_speaking` and `silent_chunks`. -/
structure DetectorState where
  started_speaking : Bool
  silent_chunks : Nat
deriving DecidableEq

/-- Threshold `silence_chunks_threshold = int(self.silence_duration * chunks_per_second)`
with `chunks_per_second = self.sample_rate / self.chunk_size`
(`src/modules/stt.py` lines 74-75). -/
def silence_chunks_threshold (cfg : Config) : Nat :=
  (Int.floor (cfg.silence_duration * (cfg.sample_rate : Rat) / (cfg.chunk_size : Rat))).toNat

/-- Cap `max_chunks = int(max_duration * chunks_per_second)`
(`src/modules/stt.py` line 76), for a nonnegative integer `max_duration`. -/
def max_chunks (cfg : Config) (max_duration : Nat) : Nat :=
  max_duration * cfg.sample_rate / cfg.chunk_size

/-- One iteration of the per-frame detector update in `record_audio`
(`src/modules/stt.py` lines 90-94): if the computed volume exceeds the
threshold, mark speech started and reset the quiet count; otherwise
increment the quiet count when speech has started. -/
def detectorStep (cfg : Config) (st : DetectorState) (f : Frame) : DetectorState :=
  if volume f > (cfg.silence_threshold : Rat) then
    { started_speaking := true, silent_chunks := 0 }
  else if st.started_speaking then
    { st with silent_chunks := st.silent_chunks + 1 }
  else
    st

/-- The per-frame update exactly as the spec words it, using the true
mean of absolute sample values (`specVolume`); kept separate so it can
be compared with the code's `detectorStep`. -/
def specDetectorStep (cfg : Config) (st : DetectorState) (f : Frame) : DetectorState :=
  if specVolume f > (cfg.silence_threshold : Rat) then
    { started_speaking := true, silent_chunks := 0 }
  else if st.started_speaking then
    { st with silent_chunks := st.silent_chunks + 1 }
  else
    st

/-- The stop test of `record_audio` (`src/modules/stt.py` line 97):
`started_speaking and silent_chunks > silence_chunks_threshold`. -/
def shouldStop (cfg : Config) (st : DetectorState) : Bool :=
  st.started_speaking && decide (st.silent_chunks > silence_chunks_threshold cfg)

/-- Detector state after feeding the first `n` frames of the source
`src` through `detectorStep`, starting from the reset state. -/
def detState (cfg : Config) (src : Nat → Frame) : Nat → DetectorState
  | 0 => { started_speaking := false, silent_chunks := 0 }
  | n + 1 => detectorStep cfg (detState cfg src n) (src n)

/-- Index (0-based, over all frames) at which the loop's stop test first
fires, scanning a frame list the way `record_audio` does: append the
frame, update the detector, test `shouldStop`, else continue. -/
def stopIndexAux (cfg : Config) : DetectorState → List Frame → Nat → Option Nat
  | _, [], _ => none
  | st, f :: rest, idx =>
    let st2 := detectorStep cfg st f
    if shouldStop cfg st2 then some idx else stopIndexAux cfg st2 rest (idx + 1)

/-- First frame index at which `record_audio`'s silence check would
break out of the loop, for a given frame sequence (`none` if it never
fires on that sequence). -/
def stopIndex (cfg : Config) (frames : List Frame) : Option Nat :=
  stopIndexAux cfg { started_speaking := false, silent_chunks := 0 } frames 0

/-- The frames accumulated by `record_audio`'s `for i in range(max_chunks)`
loop (`src/modules/stt.py` lines 81-99): each iteration appends the next
frame, updates the detector, and breaks when `shouldStop` holds.  `fuel`
is the number of loop iterations still allowed. -/
def recordAux (cfg : Config) (src : Nat → Frame) : DetectorState → Nat → Nat → List Frame
  | _, _, 0 => []
  | st, i, fuel + 1 =>
    let f := src i
    let st2 := detectorStep cfg st f
    f :: (if shouldStop cfg st2 then [] else recordAux cfg src st2 (i + 1) fuel)

/-- The full frame buffer captured by `record_audio` before packaging,
with the frame source given as an oracle `src`. -/
def record_frames (cfg : Config) (max_duration : Nat) (src : Nat → Frame) : List Frame :=
  recordAux cfg src { started_speaking := false, silent_chunks := 0 } 0
    (max_chunks cfg max_duration)

/-- Low byte of a little-endian encoding. -/
def byte0 (n : Nat) : Nat := n % 256

/-- Second byte of a little-endian encoding. -/
def byte1 (n : Nat) : Nat := n / 256 % 256

/-- Third byte of a little-endian encoding. -/
def byte2 (n : Nat) : Nat := n / 65536 % 256

/-- Fourth byte of a little-endian encoding. -/
def byte3 (n : Nat) : Nat := n / 16777216 % 256

/-- Little-endian 16-bit serialization of the sample list, as
`wav_file.writeframes(audio_data)` writes the int16 buffer: each sample
contributes its two's-complement low and high bytes. -/
def samplesToBytes : List Int → List Nat
  | [] => []
  | s :: rest =>
    (s % 65536).toNat % 256 :: (s % 65536).toNat / 256 :: samplesToBytes rest

/-- Little-endian 16-bit deserialization: pair up bytes and reinterpret
each 16-bit word as a signed sample (standard PCM decoding). -/
def bytesToSamples : List Nat → List Int
  | b0 :: b1 :: rest =>
    (if b0 + 256 * b1 < 32768 then ((b0 + 256 * b1 : Nat) : Int)
     else (b0 + 256 * b1 : Int) - 65536) :: bytesToSamples rest
  | _ => []

/-- The byte output of `_frames_to_wav` (`src/modules/stt.py` lines
109-120): Python's `wave` module in `'wb'` mode emits the canonical
44-byte PCM WAV header — RIFF size, "WAVE", a 16-byte "fmt " chunk with
format 1, the configured channel count, the configured sample rate,
byte-rate, block-align, 16 bits per sample (sample width 2), then a
"data" chunk carrying the raw little-endian samples. -/
def encodeWav (ch rate : Nat) (samples : List Int) : List Nat :=
  82 :: 73 :: 70 :: 70 ::
  byte0 (36 + 2 * samples.length) :: byte1 (36 + 2 * samples.length) ::
  byte2 (36 + 2 * samples.length) :: byte3 (36 + 2 * samples.length) ::
  87 :: 65 :: 86 :: 69 ::
  102 :: 109 :: 116 :: 32 ::
  16 :: 0 :: 0 :: 0 ::
  1 :: 0 ::
  byte0 ch :: byte1 ch ::
  byte0 rate :: byte1 rate :: byte2 rate :: byte3 rate ::
  byte0 (rate * ch * 2) :: byte1 (rate * ch * 2) ::
  byte2 (rate * ch * 2) :: byte3 (rate * ch * 2) ::
  byte0 (ch * 2) :: byte1 (ch * 2) ::
  16 :: 0 ::
  100 :: 97 :: 116 :: 97 ::
  byte0 (2 * samples.length) :: byte1 (2 * samples.length) ::
  byte2 (2 * samples.length) :: byte3 (2 * samples.length) ::
  samplesToBytes samples

/-- Packaging step `_frames_to_wav` applied to the joined frame buffer
(`audio_data = b''.join(frames)` then WAV encoding). -/
def frames_to_wav (cfg : Config) (frames : List Frame) : List Nat :=
  encodeWav cfg.channels cfg.sample_rate frames.flatten

/-- The bytes `record_audio` returns: the captured frames joined and
encoded as WAV (`src/modules/stt.py` lines 106-107).  This is what the
code returns even when zero frames were captured. -/
def record_audio (cfg : Config) (max_duration : Nat) (src : Nat → Frame) : List Nat :=
  frames_to_wav cfg (record_frames cfg max_duration src)

/-- Byte read with default 0, as a decoder indexes the package. -/
def readByte (bs : List Nat) (i : Nat) : Nat := bs.getD i 0

/-- Little-endian 16-bit field read at offset `i`. -/
def readU16 (bs : List Nat) (i : Nat) : Nat :=
  readByte bs i + 256 * readByte bs (i + 1)

/-- Little-endian 32-bit field read at offset `i`. -/
def readU32 (bs : List Nat) (i : Nat) : Nat :=
  readByte bs i + 256 * readByte bs (i + 1) + 65536 * readByte bs (i + 2) +
    16777216 * readByte bs (i + 3)

/-- A standard decoder for the packages `encodeWav` emits: checks the
RIFF/WAVE/fmt/data magics, the PCM format tag, the 16-bit sample depth
and the declared data length, and returns (channel count, sample rate,
bits per sample, decoded samples). -/
def decodeWav (bs : List Nat) : Option (Nat × Nat × Nat × List Int) :=
  if bs.take 4 = [82, 73, 70, 70]
      ∧ (bs.drop 8).take 8 = [87, 65, 86, 69, 102, 109, 116, 32]
      ∧ readU16 bs 20 = 1
      ∧ readU16 bs 34 = 16
      ∧ (bs.drop 36).take 4 = [100, 97, 116, 97]
      ∧ (bs.drop 44).length = readU32 bs 40
  then some (readU16 bs 22, readU32 bs 24, readU16 bs 34, bytesToSamples (bs.drop 44))
  else none

/-- Manual-recording session state: the `is_recording` flag, the
`recording_frames` buffer and the `recording_stream` handle reference of
`WhisperSTT` (`src/modules/stt.py` lines 48-50). -/
structure Session where
  is_recording : Bool
  recording_frames : List Frame
  recording_stream : Option Unit
deriving DecidableEq

/-- Error taxonomy named by the spec (section 7). -/
inductive RecError where
  | ConflictError
  | EmptyRecordingError
  | DeviceError
deriving DecidableEq

/-- Method `start_recording` (`src/modules/stt.py` lines 166-186): if already
recording it prints a warning and returns — no exception is raised and
no state is touched; otherwise it sets the flag, resets the buffer and
opens a fresh stream.  The `Except` result records any raised error;
the code raises none. -/
def start_recording (s : Session) : Except RecError Session :=
  if s.is_recording then
    Except.ok s
  else
    Except.ok { is_recording := true, recording_frames := [], recording_stream := some () }

/-- Method `stop_recording` (`src/modules/stt.py` lines 195-223): returns
`none` untouched when no recording is active; otherwise clears the flag,
closes and drops the stream, and — when frames were buffered — joins
them, empties the buffer and returns the WAV package. -/
def stop_recording (cfg : Config) (s : Session) : Session × Option (List Nat) :=
  if s.is_recording then
    let s1 : Session :=
      { is_recording := false, recording_frames := s.recording_frames,
        recording_stream := none }
    if s.recording_frames = [] then
      (s1, none)
    else
      ({ s1 with recording_frames := [] }, some (frames_to_wav cfg s.recording_frames))
  else
    (s, none)

/-- The cancellation path of `manual_listen_and_transcribe`
(`src/modules/stt.py` lines 239-245, `KeyboardInterrupt` handler): it
clears `is_recording` and stops/closes the stream object, but assigns
neither `recording_stream` nor `recording_frames`; no package is
produced. -/
def cancel_recording (s : Session) : Session × Option (List Nat) :=
  ({ s with is_recording := false }, none)

/-- Status-notifier state from `StateBroadcaster.__init__`
(`src/server/state_broadcaster.py` lines 12-20). -/
structure StateBroadcaster where
  server_url : String
  enabled : Bool
deriving DecidableEq

/-- Outcome of one `requests.post` attempt, supplied as an oracle:
a completed response with a status code, a raised
`requests.exceptions.ConnectionError`, or any other raised exception. -/
inductive NetOutcome where
  | ok (status : Nat)
  | connErr
  | otherErr
deriving DecidableEq

/-- Exceptions the `try` body of `send_state` can raise. -/
inductive PyNetExc where
  | connectionError
  | other
deriving DecidableEq

/-- The `try` body of `send_state`: the network attempt either yields a
status code or raises. -/
def postAttempt (net : NetOutcome) : Except PyNetExc Nat :=
  match net with
  | NetOutcome.ok status => Except.ok status
  | NetOutcome.connErr => Except.error PyNetExc.connectionError
  | NetOutcome.otherErr => Except.error PyNetExc.other

/-- Method `send_state` (`src/server/state_broadcaster.py` lines 22-47):
returns immediately when disabled; otherwise attempts the post, and the
exhaustive handlers make the call total (no exception escapes): a
`ConnectionError` flips `enabled` to false, any other failure and any
status code are merely printed.  The boolean records whether a network
attempt was made. -/
def send_state (b : StateBroadcaster) (state text : String) (net : NetOutcome) :
    StateBroadcaster × Bool :=
  if b.enabled then
    match postAttempt net with
    | Except.ok _ => (b, true)
    | Except.error PyNetExc.connectionError =>
      ({ b with enabled := false }, true)
    | Except.error PyNetExc.other => (b, true)
  else
    (b, false)

/-- A run of successive `send_state` calls, threading the broadcaster
state; returns the final state and, per call, whether a network attempt
was made.  `state`/`text` are carried along with each oracle outcome. -/
def send_state_run (b : StateBroadcaster) :
    List (String × String × NetOutcome) → StateBroadcaster × List Bool
  | [] => (b, [])
  | (st, tx, net) :: rest =>
    let r := send_state b st tx net
    let rr := send_state_run r.1 rest
    (rr.1, r.2 :: rr.2)

/-- Conversation state of `LLMProcessor`: the history list (role,
content) from `src/modules/llm.py` line 45; `max_history = 10`. -/
structure LLMProcessor where
  conversation_history : List (String × String)
deriving DecidableEq

/-- Outcome of the chat-completion request in `generate_response`,
supplied as an oracle: a successful response whose first choice carries
`content`, a `requests.exceptions.Timeout`, an
`requests.exceptions.HTTPError` with the response status code, or any
other exception. -/
inductive ApiOutcome where
  | success (content : String)
  | timeout
  | httpError (status : Nat)
  | otherErr
deriving DecidableEq

/-- Method `generate_response` (`src/modules/llm.py` lines 48-127): on success
it appends the exchange to the history, trims it to the last
`max_history * 2` entries and returns the provider's content verbatim;
on timeout, HTTP error (branching on status 401/429/other) or any other
exception it returns a fixed fallback sentence and leaves the history
unchanged.  Every path returns a string; no exception escapes. -/
def generate_response (p : LLMProcessor) (user_input : String) (api : ApiOutcome) :
    LLMProcessor × String :=
  match api with
  | ApiOutcome.success content =>
    let h1 := p.conversation_history ++ [("user", user_input), ("assistant", content)]
    let h2 := if h1.length > 20 then h1.drop (h1.length - 20) else h1
    ({ conversation_history := h2 }, content)
  | ApiOutcome.timeout =>
    (p, "I\x27m sorry, I\x27m taking too long to think. Can you ask me again?")
  | ApiOutcome.httpError status =>
    if status = 401 then
      (p, "Sorry, there\x27s an authentication issue. Please check the API key.")
    else if status = 429 then
      (p, "I\x27m a bit overwhelmed right now. Please try again in a moment.")
    else
      (p, "Sorry, I\x27m having trouble processing that right now.")
  | ApiOutcome.otherErr =>
    (p, "Sorry, I encountered an error. Can you try asking that differently?")

/-- The default configuration of the repository: sample rate 16000 Hz,
mono, chunk size 1024, silence threshold 500, silence duration 2.0 s. -/
def cfg0 : Config :=
  { sample_rate := 16000, channels := 1, chunk_size := 1024,
    silence_threshold := 500, silence_duration := 2 }

/-- A small configuration used for concrete package round-trips:
8000 Hz, mono, 4-sample chunks. -/
def cfgSmall : Config :=
  { sample_rate := 8000, channels := 1, chunk_size := 4,
    silence_threshold := 500, silence_duration := 1 }

theorem wrappedAbs_le_abs (s : Int) : wrappedAbs s ≤ |s| := by
  unfold wrappedAbs
  split
  · rename_i h
    subst h
    decide
  · exact le_refl _

theorem volume_le_specVolume (f : Frame) : volume f ≤ specVolume f := by
  unfold volume specVolume
  rcases Nat.eq_zero_or_pos f.length with h | h
  · obtain rfl := List.length_eq_zero.mp h
    simp
  · have hlen : (0 : Rat) < (f.length : Rat) := by exact_mod_cast h
    refine (div_le_div_iff_of_pos_right hlen).mpr ?_
    have hsum : (f.map wrappedAbs).sum ≤ (f.map (fun s => |s|)).sum :=
      List.sum_le_sum (fun s _ => wrappedAbs_le_abs s)
    exact_mod_cast hsum

theorem volume_eq_specVolume (f : Frame) (h : ∀ s ∈ f, s ≠ -32768) :
    volume f = specVolume f := by
  unfold volume specVolume
  have : f.map wrappedAbs = f.map (fun s => |s|) := by
    refine List.map_congr_left (fun s hs => ?_)
    unfold wrappedAbs
    rw [if_neg (h s hs)]
  rw [this]

theorem not_loud_of_spec_quiet (cfg : Config) (g : Frame)
    (h : specVolume g ≤ (cfg.silence_threshold : Rat)) :
    ¬ volume g > (cfg.silence_threshold : Rat) :=
  not_lt.mpr (le_trans (volume_le_specVolume g) h)

/-- C1: the per-frame detector update, amended.  The code computes the
volume with numpy int16 absolute values (`volume`), which coincides with
the spec's true mean of absolute values (`specVolume`) exactly when no
sample equals -32768; with the code's volume, the update and the stop
test behave as the claim describes. -/
theorem c1_thm (cfg : Config) (st : DetectorState) (f : Frame) :
    ((∀ s ∈ f, s ≠ -32768) → detectorStep cfg st f = specDetectorStep cfg st f)
    ∧ (volume f > (cfg.silence_threshold : Rat) →
        detectorStep cfg st f = { started_speaking := true, silent_chunks := 0 })
    ∧ (¬ volume f > (cfg.silence_threshold : Rat) →
        (detectorStep cfg st f).started_speaking = st.started_speaking ∧
        (detectorStep cfg st f).silent_chunks =
          (if st.started_speaking then st.silent_chunks + 1 else st.silent_chunks))
    ∧ (shouldStop cfg st = true ↔
        st.started_speaking = true ∧ st.silent_chunks > silence_chunks_threshold cfg) := by
  refine ⟨?_, ?_, ?_, ?_⟩
  · intro h
    unfold detectorStep specDetectorStep
    rw [volume_eq_specVolume f h]
  · intro h
    unfold detectorStep
    rw [if_pos h]
  · intro h
    unfold detectorStep
    rw [if_neg h]
    cases hs : st.started_speaking <;> simp [hs]
  · unfold shouldStop
    simp

/-- C1 witness: the amended per-frame update evaluated at a concrete
wrap-free frame, where code and spec updates agree. -/
theorem c1_witness :
    detectorStep cfg0 { started_speaking := true, silent_chunks := 5 } [100, -200] =
      specDetectorStep cfg0 { started_speaking := true, silent_chunks := 5 } [100, -200] :=
  (c1_thm cfg0 { started_speaking := true, silent_chunks := 5 } [100, -200]).1 (by decide)

/-- C1 counterexample: on a frame of full-scale negative samples the
code's update differs from the spec's stated update, because
`np.abs` wraps -32768 to -32768 and the frame is classified as quiet
even though its true mean absolute amplitude is 32768 > 500. -/
theorem c1_counterexample :
    specVolume [-32768, -32768, -32768, -32768] > (cfg0.silence_threshold : Rat)
    ∧ detectorStep cfg0 { started_speaking := false, silent_chunks := 0 }
        [-32768, -32768, -32768, -32768] ≠
      specDetectorStep cfg0 { started_speaking := false, silent_chunks := 0 }
        [-32768, -32768, -32768, -32768] := by
  have h1 : volume [-32768, -32768, -32768, -32768] = -32768 := by
    norm_num [volume, wrappedAbs]
  have h2 : specVolume [-32768, -32768, -32768, -32768] = 32768 := by
    norm_num [specVolume]
  constructor
  · rw [h2]
    norm_num [cfg0]
  · unfold detectorStep specDetectorStep
    rw [h1, h2]
    norm_num [cfg0]

/-- C5: amended.  Calling `start_recording` on a session that is already
recording returns without raising any error and leaves the session
(flag, buffer, stream) unchanged. -/
theorem c5_thm (s : Session) (h : s.is_recording = true) :
    start_recording s = Except.ok s := by
  simp [start_recording, h]

/-- C5 witness: the amended no-op start at a concrete recording session. -/
theorem c5_witness :
    start_recording ⟨true, [], none⟩ = Except.ok ⟨true, [], none⟩ :=
  c5_thm ⟨true, [], none⟩ rfl

/-- C5 counterexample: a second start on a recording session does not
fail with `ConflictError`; it returns normally with the session
untouched. -/
theorem c5_counterexample :
    start_recording ⟨true, [[7]], some ()⟩ = Except.ok ⟨true, [[7]], some ()⟩
    ∧ start_recording ⟨true, [[7]], some ()⟩ ≠ Except.error RecError.ConflictError := by
  constructor
  · rfl
  · simp [start_recording]

/-- C6: for every session that has left the recording state, a second
stop and a second cancel are no-ops: they change no state, raise
nothing, and return the no-active-recording result (`none`) with no
Audio Package. -/
theorem c6_thm (cfg : Config) (s : Session) (h : s.is_recording = false) :
    stop_recording cfg s = (s, none) ∧ cancel_recording s = (s, none) := by
  obtain ⟨ir, fr, str⟩ := s
  simp only at h
  subst h
  constructor
  · simp [stop_recording]
  · simp [cancel_recording]

/-- C6 witness: the idempotent stop/cancel at a concrete stopped session. -/
theorem c6_witness :
    stop_recording cfg0 ⟨false, [], none⟩ = (⟨false, [], none⟩, none)
    ∧ cancel_recording ⟨false, [], none⟩ = (⟨false, [], none⟩, none) :=
  c6_thm cfg0 ⟨false, [], none⟩ rfl

/-- C9: amended.  On stop with a nonempty buffer the frames are cleared
from the session once the package is produced; on cancel no package is
produced and the flag is cleared, but the buffered frames are left on
the session object (the code's interrupt handler never clears them). -/
theorem c9_thm (cfg : Config) (s : Session) (h : s.is_recording = true) :
    (s.recording_frames ≠ [] →
      (stop_recording cfg s).1.recording_frames = []
      ∧ (stop_recording cfg s).2 = some (frames_to_wav cfg s.recording_frames))
    ∧ (cancel_recording s).1.recording_frames = s.recording_frames
    ∧ (cancel_recording s).2 = none
    ∧ (cancel_recording s).1.is_recording = false := by
  refine ⟨fun hf => ⟨?_, ?_⟩, ?_, ?_, ?_⟩
  · simp [stop_recording, h, hf]
  · simp [stop_recording, h, hf]
  · simp [cancel_recording]
  · simp [cancel_recording]
  · simp [cancel_recording]

/-- C9 witness: the amended stop/cancel buffer behavior at a concrete
recording session holding one frame. -/
theorem c9_witness :
    (stop_recording cfg0 ⟨true, [[5]], some ()⟩).1.recording_frames = []
    ∧ (stop_recording cfg0 ⟨true, [[5]], some ()⟩).2 = some (frames_to_wav cfg0 [[5]])
    ∧ (cancel_recording ⟨true, [[5]], some ()⟩).2 = none := by
  have h := c9_thm cfg0 ⟨true, [[5]], some ()⟩ rfl
  exact ⟨(h.1 (by simp)).1, (h.1 (by simp)).2, h.2.2.1⟩

/-- C9 counterexample: cancelling a recording session with a buffered
frame leaves the buffer in place — the frames are not discarded, so the
claim's "buffered frames are discarded on cancel" fails. -/
theorem c9_counterexample :
    (cancel_recording ⟨true, [[5]], some ()⟩).1.recording_frames = [[5]]
    ∧ ([[5]] : List Frame) ≠ []
    ∧ (cancel_recording ⟨true, [[5]], some ()⟩).2 = none := by
  refine ⟨rfl, ?_, rfl⟩
  simp

theorem send_state_run_disabled (os : List (String × String × NetOutcome)) :
    ∀ b : StateBroadcaster, b.enabled = false →
      send_state_run b os = (b, os.map (fun _ => false)) := by
  induction os with
  | nil => intro b h; rfl
  | cons o os ih =>
    intro b h
    obtain ⟨st, tx, net⟩ := o
    simp only [send_state_run]
    have hb : send_state b st tx net = (b, false) := by simp [send_state, h]
    rw [hb, ih b h]
    simp

/-- C8: the status notifier never escapes with an exception (its
handlers are exhaustive, so `send_state` is a total function); a
disabled notifier returns immediately without a network attempt; a
connection failure disables it, and every subsequent send in the run
makes no network attempt. -/
theorem c8_thm (b : StateBroadcaster) (state text : String) (net : NetOutcome)
    (os : List (String × String × NetOutcome)) :
    (b.enabled = false → send_state b state text net = (b, false))
    ∧ (send_state b state text NetOutcome.connErr).1.enabled = false
    ∧ (send_state_run (send_state b state text NetOutcome.connErr).1 os).2 =
        os.map (fun _ => false) := by
  have hdis : (send_state b state text NetOutcome.connErr).1.enabled = false := by
    by_cases h : b.enabled = true
    · simp [send_state, postAttempt, h]
    · simp only [Bool.not_eq_true] at h
      simp [send_state, h]
  refine ⟨fun h => by simp [send_state, h], hdis, ?_⟩
  rw [(send_state_run_disabled os _ hdis)]

/-- C8 witness: a disabled notifier returns immediately with no attempt
at a concrete state. -/
theorem c8_witness :
    send_state ⟨"http://localhost:8000", false⟩ "idle" "" (NetOutcome.ok 200) =
      (⟨"http://localhost:8000", false⟩, false) :=
  (c8_thm ⟨"http://localhost:8000", false⟩ "idle" "" (NetOutcome.ok 200) []).1 rfl

/-- C10: amended.  Every error path of `generate_response` (timeout,
HTTP error of any status, other exception) returns a fixed non-empty
fallback sentence, and the success path returns the provider content
verbatim — a plain string in every case, so the caller cannot tell a
fallback from a generated reply by the value's type; the return is
non-empty on the success path only when the provider content is. -/
theorem c10_thm (p : LLMProcessor) (user_input : String) (status : Nat)
    (content : String) :
    (generate_response p user_input ApiOutcome.timeout).2 ≠ ""
    ∧ (generate_response p user_input (ApiOutcome.httpError status)).2 ≠ ""
    ∧ (generate_response p user_input ApiOutcome.otherErr).2 ≠ ""
    ∧ (generate_response p user_input (ApiOutcome.success content)).2 = content := by
  refine ⟨?_, ?_, ?_, rfl⟩
  · simp [generate_response]
  · simp only [generate_response]
    split <;> [skip; split] <;> simp
  · simp [generate_response]

/-- C10 counterexample: when the provider's successful response carries
empty content, `generate_response` returns the empty string — the claim
that every execution path returns a non-empty string fails on the
success path. -/
theorem c10_counterexample :
    (generate_response ⟨[]⟩ "hi" (ApiOutcome.success "")).2 = "" := rfl

theorem shouldStop_false_of_not_started (cfg : Config) (st : DetectorState)
    (h : st.started_speaking = false) : shouldStop cfg st = false := by
  simp [shouldStop, h]

theorem detectorStep_quiet_not_started (cfg : Config) (st : DetectorState) (f : Frame)
    (hf : ¬ volume f > (cfg.silence_threshold : Rat)) (h : st.started_speaking = false) :
    detectorStep cfg st f = st := by
  unfold detectorStep
  rw [if_neg hf, if_neg (by simp [h])]

theorem silence_chunks_threshold_cfg0 : silence_chunks_threshold cfg0 = 31 := by
  norm_num [silence_chunks_threshold, cfg0]
  decide

theorem stopIndexAux_quiet_lead (cfg : Config) (pre : List Frame)
    (hpre : ∀ g ∈ pre, ¬ volume g > (cfg.silence_threshold : Rat)) :
    ∀ (st : DetectorState), st.started_speaking = false → ∀ (rest : List Frame) (idx : Nat),
      stopIndexAux cfg st (pre ++ rest) idx = stopIndexAux cfg st rest (idx + pre.length) := by
  induction pre with
  | nil => intro st hst rest idx; simp
  | cons g pre ih =>
    intro st hst rest idx
    have hstep : detectorStep cfg st g = st :=
      detectorStep_quiet_not_started cfg st g (hpre g (by simp)) hst
    simp only [List.cons_append, stopIndexAux, List.append_eq]
    rw [hstep, shouldStop_false_of_not_started cfg st hst]
    simp only [Bool.false_eq_true, if_false]
    rw [ih (fun g hg => hpre g (by simp [hg])) st hst rest (idx + 1)]
    congr 1
    simp [List.length_cons]
    omega

theorem stopIndexAux_quiet_run (cfg : Config) (post : List Frame)
    (hpost : ∀ g ∈ post, ¬ volume g > (cfg.silence_threshold : Rat)) :
    ∀ (j idx : Nat), j ≤ silence_chunks_threshold cfg →
      stopIndexAux cfg ⟨true, j⟩ post idx =
        if silence_chunks_threshold cfg + 1 - j ≤ post.length then
          some (idx + (silence_chunks_threshold cfg - j))
        else none := by
  induction post with
  | nil =>
    intro j idx hj
    rw [if_neg (by simp; omega)]
    rfl
  | cons g post ih =>
    intro j idx hj
    have hstep : detectorStep cfg ⟨true, j⟩ g = ⟨true, j + 1⟩ := by
      unfold detectorStep
      rw [if_neg (hpost g (by simp))]
      rfl
    simp only [stopIndexAux]
    rw [hstep]
    by_cases hstop : j + 1 > silence_chunks_threshold cfg
    · have hss : shouldStop cfg ⟨true, j + 1⟩ = true := by
        simp [shouldStop]
        omega
      rw [hss]
      rw [if_pos rfl, if_pos (by simp [List.length_cons]; omega)]
      congr 1
      omega
    · have hss : shouldStop cfg ⟨true, j + 1⟩ = false := by
        simp [shouldStop]
        omega
      rw [hss]
      simp only [Bool.false_eq_true, if_false]
      rw [ih (fun g hg => hpost g (by simp [hg])) (j + 1) (idx + 1) (by omega)]
      by_cases hc : silence_chunks_threshold cfg + 1 - (j + 1) ≤ post.length
      · rw [if_pos hc, if_pos (by simp [List.length_cons]; omega)]
        congr 1
        omega
      · rw [if_neg hc, if_neg (by simp [List.length_cons]; omega)]

theorem stopIndexAux_none_of_quiet (cfg : Config) (frames : List Frame)
    (h : ∀ g ∈ frames, ¬ volume g > (cfg.silence_threshold : Rat)) :
    ∀ st : DetectorState, st.started_speaking = false → ∀ idx,
      stopIndexAux cfg st frames idx = none := by
  induction frames with
  | nil => intro st hst idx; rfl
  | cons g fr ih =>
    intro st hst idx
    have hstep : detectorStep cfg st g = st :=
      detectorStep_quiet_not_started cfg st g (h g (by simp)) hst
    simp only [stopIndexAux]
    rw [hstep, shouldStop_false_of_not_started cfg st hst]
    simp only [Bool.false_eq_true, if_false]
    exact ih (fun g hg => h g (by simp [hg])) st hst (idx + 1)

/-- C2: amended.  For a frame sequence in which frame `k` is the only
frame whose computed volume exceeds the threshold (the spec's true mean
absolute amplitude for the surrounding frames, the code's int16 volume
for frame `k`), the stop test fires exactly while processing frame
`k + silence_chunks_threshold + 1` when the sequence extends that far,
and never otherwise. -/
theorem c2_thm (cfg : Config) (pre : List Frame) (f : Frame) (post : List Frame)
    (hpre : ∀ g ∈ pre, specVolume g ≤ (cfg.silence_threshold : Rat))
    (hf : volume f > (cfg.silence_threshold : Rat))
    (hpost : ∀ g ∈ post, specVolume g ≤ (cfg.silence_threshold : Rat)) :
    stopIndex cfg (pre ++ f :: post) =
      if pre.length + silence_chunks_threshold cfg + 1 < (pre ++ f :: post).length then
        some (pre.length + silence_chunks_threshold cfg + 1)
      else none := by
  unfold stopIndex
  rw [stopIndexAux_quiet_lead cfg pre
    (fun g hg => not_loud_of_spec_quiet cfg g (hpre g hg)) _ rfl]
  simp only [stopIndexAux]
  have hstep : detectorStep cfg ⟨false, 0⟩ f = ⟨true, 0⟩ := by
    unfold detectorStep
    rw [if_pos hf]
  rw [hstep]
  have hss : shouldStop cfg ⟨true, 0⟩ = false := by simp [shouldStop]
  rw [hss]
  simp only [Bool.false_eq_true, if_false]
  rw [stopIndexAux_quiet_run cfg post
    (fun g hg => not_loud_of_spec_quiet cfg g (hpost g hg)) 0 (0 + pre.length + 1)
    (Nat.zero_le _)]
  have hlen : (pre ++ f :: post).length = pre.length + post.length + 1 := by
    simp [List.length_append, List.length_cons]
    omega
  simp only [hlen]
  by_cases hc : silence_chunks_threshold cfg + 1 - 0 ≤ post.length
  · rw [if_pos hc, if_pos (by omega)]
    congr 1
    omega
  · rw [if_neg hc, if_neg (by omega)]

/-- C2 witness: with the repository defaults (rate 16000, chunk 1024,
silence 2.0 s) the threshold is 31 and one loud frame followed by quiet
frames stops on overall index 32, the 32nd quiet frame. -/
theorem c2_witness :
    silence_chunks_threshold cfg0 = 31
    ∧ stopIndex cfg0 ([600] :: List.replicate 32 [0]) = some 32 := by
  refine ⟨silence_chunks_threshold_cfg0, ?_⟩
  have h := c2_thm cfg0 [] [600] (List.replicate 32 [0]) (by simp)
    (by norm_num [volume, wrappedAbs, cfg0])
    (fun g hg => by rw [List.eq_of_mem_replicate hg]; norm_num [specVolume, cfg0])
  simp only [List.nil_append, List.length_cons, List.length_replicate,
    silence_chunks_threshold_cfg0] at h
  simpa using h

/-- C2 counterexample: a first frame of full-scale negative samples has
true mean absolute amplitude 32768 > 500 (so the claim's hypotheses hold
with k = 0 and the sequence long enough that the claim demands a stop at
index 32), yet the code's stop test never fires, because `np.abs` wraps
-32768 and the frame is classified as quiet. -/
theorem c2_counterexample :
    specVolume [-32768, -32768, -32768, -32768] > (cfg0.silence_threshold : Rat)
    ∧ (∀ g ∈ List.replicate 40 ([0] : Frame), specVolume g ≤ (cfg0.silence_threshold : Rat))
    ∧ 0 + silence_chunks_threshold cfg0 + 1 <
        ([-32768, -32768, -32768, -32768] :: List.replicate 40 ([0] : Frame)).length
    ∧ stopIndex cfg0 ([-32768, -32768, -32768, -32768] :: List.replicate 40 [0]) = none := by
  refine ⟨?_, ?_, ?_, ?_⟩
  · norm_num [specVolume, cfg0]
  · intro g hg
    rw [List.eq_of_mem_replicate hg]
    norm_num [specVolume, cfg0]
  · simp [silence_chunks_threshold_cfg0, List.length_replicate]
  · refine stopIndexAux_none_of_quiet cfg0 _ ?_ ⟨false, 0⟩ rfl 0
    intro g hg
    rcases List.mem_cons.mp hg with rfl | hg
    · norm_num [volume, wrappedAbs, cfg0]
    · rw [List.eq_of_mem_replicate hg]
      norm_num [volume, wrappedAbs, cfg0]

theorem detState_quiet (cfg : Config) (src : Nat → Frame)
    (hq : ∀ i, ¬ volume (src i) > (cfg.silence_threshold : Rat)) :
    ∀ n, (detState cfg src n).started_speaking = false := by
  intro n
  induction n with
  | zero => rfl
  | succ n ih =>
    simp only [detState]
    rw [detectorStep_quiet_not_started cfg _ _ (hq n) ih]
    exact ih

theorem recordAux_length_le (cfg : Config) (src : Nat → Frame) :
    ∀ (fuel : Nat) (st : DetectorState) (i : Nat),
      (recordAux cfg src st i fuel).length ≤ fuel := by
  intro fuel
  induction fuel with
  | zero => intro st i; simp [recordAux]
  | succ fuel ih =>
    intro st i
    simp only [recordAux]
    by_cases h : shouldStop cfg (detectorStep cfg st (src i)) = true
    · simp [h]
    · simp only [h, Bool.false_eq_true, if_false, List.length_cons]
      have := ih (detectorStep cfg st (src i)) (i + 1)
      omega

theorem recordAux_length_quiet (cfg : Config) (src : Nat → Frame)
    (hq : ∀ i, ¬ volume (src i) > (cfg.silence_threshold : Rat)) :
    ∀ (fuel : Nat) (st : DetectorState), st.started_speaking = false → ∀ i,
      (recordAux cfg src st i fuel).length = fuel := by
  intro fuel
  induction fuel with
  | zero => intro st hst i; rfl
  | succ fuel ih =>
    intro st hst i
    simp only [recordAux]
    rw [detectorStep_quiet_not_started cfg st (src i) (hq i) hst,
      shouldStop_false_of_not_started cfg st hst]
    simp only [Bool.false_eq_true, if_false, List.length_cons]
    rw [ih st hst (i + 1)]

/-- C3: for a source whose every frame has true mean absolute amplitude
at most the threshold, `started_speaking` stays false and the stop test
never fires, so the loop runs its full `max_chunks` iterations and
captures exactly `max_chunks = floor(max_duration * sample_rate /
chunk_size)` frames; and no run, whatever the frames, ever captures
more than `max_chunks` frames. -/
theorem c3_thm (cfg : Config) (max_duration : Nat) (src : Nat → Frame)
    (hq : ∀ i, specVolume (src i) ≤ (cfg.silence_threshold : Rat)) :
    (∀ n, (detState cfg src n).started_speaking = false
      ∧ shouldStop cfg (detState cfg src n) = false)
    ∧ (record_frames cfg max_duration src).length = max_chunks cfg max_duration
    ∧ (∀ src2 : Nat → Frame,
        (record_frames cfg max_duration src2).length ≤ max_chunks cfg max_duration) := by
  have hq' : ∀ i, ¬ volume (src i) > (cfg.silence_threshold : Rat) :=
    fun i => not_loud_of_spec_quiet cfg (src i) (hq i)
  refine ⟨fun n => ⟨detState_quiet cfg src hq' n,
    shouldStop_false_of_not_started cfg _ (detState_quiet cfg src hq' n)⟩, ?_, ?_⟩
  · exact recordAux_length_quiet cfg src hq' _ _ rfl 0
  · intro src2
    exact recordAux_length_le cfg src2 _ _ 0

/-- C3 witness: an all-quiet source with the repository defaults and a
30-second cap captures exactly 468 frames. -/
theorem c3_witness :
    max_chunks cfg0 30 = 468
    ∧ (detState cfg0 (fun _ => [0] : Nat → Frame) 5).started_speaking = false
    ∧ (record_frames cfg0 30 (fun _ => [0])).length = max_chunks cfg0 30 := by
  have h := c3_thm cfg0 30 (fun _ => [0])
    (fun i => by norm_num [specVolume, cfg0])
  exact ⟨by decide, (h.1 5).1, h.2.1⟩

theorem u16_roundtrip (n : Nat) (h : n < 65536) : byte0 n + 256 * byte1 n = n := by
  unfold byte0 byte1
  omega

theorem u32_roundtrip (n : Nat) (h : n < 4294967296) :
    byte0 n + 256 * byte1 n + 65536 * byte2 n + 16777216 * byte3 n = n := by
  unfold byte0 byte1 byte2 byte3
  omega

theorem samplesToBytes_length (l : List Int) :
    (samplesToBytes l).length = 2 * l.length := by
  induction l with
  | nil => rfl
  | cons s l ih =>
    simp only [samplesToBytes, List.length_cons, ih]
    omega

theorem bytes_samples_roundtrip (l : List Int)
    (h : ∀ s ∈ l, -32768 ≤ s ∧ s < 32768) :
    bytesToSamples (samplesToBytes l) = l := by
  induction l with
  | nil => rfl
  | cons s l ih =>
    have hs := h s (by simp)
    simp only [samplesToBytes, bytesToSamples]
    rw [ih (fun x hx => h x (by simp [hx]))]
    have hrange : 0 ≤ s % 65536 ∧ s % 65536 < 65536 :=
      ⟨Int.emod_nonneg s (by decide), Int.emod_lt_of_pos s (by decide)⟩
    congr 1
    split <;> push_cast <;> omega

theorem decode_encode (ch rate : Nat) (samples : List Int)
    (hch : ch < 65536) (hr : rate < 4294967296)
    (hlen : 2 * samples.length < 4294967296) :
    decodeWav (encodeWav ch rate samples) =
      some (ch, rate, 16, bytesToSamples (samplesToBytes samples)) := by
  simp only [encodeWav, decodeWav, readU16, readU32, readByte,
    List.take_succ_cons, List.take_zero, List.drop_succ_cons, List.drop_zero,
    List.getD_cons_succ, List.getD_cons_zero]
  rw [if_pos]
  · rw [u16_roundtrip ch hch, u32_roundtrip rate hr]
  · refine ⟨by trivial, by trivial, by norm_num, by norm_num, by trivial, ?_⟩
    rw [samplesToBytes_length, u32_roundtrip (2 * samples.length) hlen]

theorem encodeWav_length (ch rate : Nat) (samples : List Int) :
    (encodeWav ch rate samples).length = 44 + 2 * samples.length := by
  simp only [encodeWav, List.length_cons, samplesToBytes_length]
  omega

theorem flatten_length_of_sizes (frames : List Frame) (cs : Nat)
    (h : ∀ f ∈ frames, f.length = cs) :
    frames.flatten.length = frames.length * cs := by
  induction frames with
  | nil => simp
  | cons f fr ih =>
    simp only [List.flatten_cons, List.length_append, List.length_cons]
    rw [h f (by simp), ih (fun g hg => h g (by simp [hg]))]
    ring

/-- C7: packaging a buffer of N frames of chunk_size 16-bit samples via
`_frames_to_wav` yields a PCM WAV whose header carries the configured
channel count, the configured sample rate, bit depth 16 and the byte
length of the data, and a standard decode of the package returns exactly
the N * chunk_size captured samples. -/
theorem c7_thm (cfg : Config) (frames : List Frame)
    (hch : cfg.channels < 65536) (hr : cfg.sample_rate < 4294967296)
    (hrange : ∀ f ∈ frames, ∀ s ∈ f, -32768 ≤ s ∧ s < 32768)
    (hsize : ∀ f ∈ frames, f.length = cfg.chunk_size)
    (hlen : 2 * frames.flatten.length < 4294967296) :
    decodeWav (frames_to_wav cfg frames) =
      some (cfg.channels, cfg.sample_rate, 16, frames.flatten)
    ∧ frames.flatten.length = frames.length * cfg.chunk_size
    ∧ (frames_to_wav cfg frames).length = 44 + 2 * frames.flatten.length := by
  have hflat : ∀ s ∈ frames.flatten, -32768 ≤ s ∧ s < 32768 := by
    intro s hs
    obtain ⟨f, hf, hsf⟩ := List.mem_flatten.mp hs
    exact hrange f hf s hsf
  refine ⟨?_, flatten_length_of_sizes frames cfg.chunk_size hsize,
    encodeWav_length cfg.channels cfg.sample_rate frames.flatten⟩
  unfold frames_to_wav
  rw [decode_encode cfg.channels cfg.sample_rate frames.flatten hch hr hlen,
    bytes_samples_roundtrip frames.flatten hflat]

/-- C7 witness: a one-frame silent buffer with a 4-sample chunk size
round-trips through the WAV package. -/
theorem c7_witness :
    decodeWav (frames_to_wav cfgSmall [[0, 0, 0, 0]]) = some (1, 8000, 16, [0, 0, 0, 0])
    ∧ ([[0, 0, 0, 0]] : List Frame).flatten.length = 1 * cfgSmall.chunk_size := by
  have h := c7_thm cfgSmall [[0, 0, 0, 0]] (by decide) (by decide)
    (by decide) (by decide) (by decide)
  exact ⟨h.1, h.2.1⟩

/-- C4: amended.  When the loop captures zero frames, `record_audio`
does not signal any error: it returns a well-formed empty Audio Package
(the 44-byte WAV header with data length 0), which any standard decoder
parses as a zero-sample recording. -/
theorem c4_thm (cfg : Config) (max_duration : Nat) (src : Nat → Frame)
    (h0 : record_frames cfg max_duration src = [])
    (hch : cfg.channels < 65536) (hr : cfg.sample_rate < 4294967296) :
    record_audio cfg max_duration src = encodeWav cfg.channels cfg.sample_rate []
    ∧ decodeWav (record_audio cfg max_duration src) =
        some (cfg.channels, cfg.sample_rate, 16, []) := by
  have he : record_audio cfg max_duration src = encodeWav cfg.channels cfg.sample_rate [] := by
    unfold record_audio frames_to_wav
    rw [h0]
    rfl
  refine ⟨he, ?_⟩
  rw [he, decode_encode cfg.channels cfg.sample_rate [] hch hr (by simp)]
  rfl

/-- C4 witness: the amended zero-frame behavior at the repository
defaults with a zero-second cap. -/
theorem c4_witness :
    decodeWav (record_audio cfg0 0 (fun _ => [0])) = some (1, 16000, 16, []) := by
  have h := c4_thm cfg0 0 (fun _ => [0]) (by decide) (by decide) (by decide)
  exact h.2

/-- C4 counterexample: a session that finalizes with zero buffered
frames returns an ordinary Audio Package — the same WAV encoding a
successful recording would use, here with zero data bytes — and no
distinct empty-recording error is signaled: the claim that an error is
returned instead of a package fails. -/
theorem c4_counterexample :
    record_frames cfg0 0 (fun _ => [0]) = []
    ∧ record_audio cfg0 0 (fun _ => [0]) = frames_to_wav cfg0 []
    ∧ decodeWav (record_audio cfg0 0 (fun _ => [0])) = some (1, 16000, 16, []) := by
  exact ⟨rfl, rfl, by decide⟩
